import Mathlib

/-!
Verification of the `rsrdma.c` raw-call shim of the Nugine/rdma repository,
together with spec-modelled cores (capability discovery, address resolution,
memory-region registry, completion engine) for the parts of the design that
sit above the shim.
-/

namespace Rsrdma

/-- A C pointer value: either the null pointer or a nonnull address.
Pointer arguments of the shim are opaque — the wrappers never dereference
them — so only the null / nonnull distinction and the address are modelled. -/
inductive CPtr where
  | null : CPtr
  | addr : Nat → CPtr
deriving DecidableEq, Repr

/-- The underlying verbs layer the shim calls into. Each primitive may
inspect its arguments and the ambient state `σ` (device, kernel, hardware)
and returns its native result together with the successor state. The shim
treats this layer as a fixed, opaque dependency, so it is a parameter of
the embedding. `ibv_query_port` takes its port number as `uint8_t`
(values in `[0, 255]`), `ibv_query_gid_ex` as `uint32_t`. Integer widths
are modelled as `Nat` with the C argument conversions made explicit at
call sites (see `toU8`, `toU32`). -/
structure VerbsApi (σ : Type) where
  ibv_query_device_ex : CPtr → CPtr → CPtr → σ → Int × σ
  ibv_query_port : CPtr → Nat → CPtr → σ → Int × σ
  ibv_query_gid_ex : CPtr → Nat → Nat → CPtr → Nat → σ → Int × σ
  ibv_create_cq_ex : CPtr → CPtr → σ → CPtr × σ

variable {σ : Type}

/-- `rs_ibv_query_device_ex` from `rsrdma.c`: body is
`return ibv_query_device_ex(context, input, attr);`. -/
def rs_ibv_query_device_ex (api : VerbsApi σ) (context input attr : CPtr)
    (s : σ) : Int × σ :=
  api.ibv_query_device_ex context input attr s

/-- `rs_ibv_query_port` from `rsrdma.c`: body is
`return ibv_query_port(context, port_num, port_attr);` with
`port_num : uint8_t`. -/
def rs_ibv_query_port (api : VerbsApi σ) (context : CPtr) (port_num : Nat)
    (port_attr : CPtr) (s : σ) : Int × σ :=
  api.ibv_query_port context port_num port_attr s

/-- `rs_ibv_query_gid_ex` from `rsrdma.c`: body is
`return ibv_query_gid_ex(context, port_num, gid_index, entry, flags);`
with `port_num`, `gid_index`, `flags : uint32_t`. -/
def rs_ibv_query_gid_ex (api : VerbsApi σ) (context : CPtr)
    (port_num gid_index : Nat) (entry : CPtr) (flags : Nat) (s : σ) :
    Int × σ :=
  api.ibv_query_gid_ex context port_num gid_index entry flags s

/-- `rs_ibv_create_cq_ex` from `rsrdma.c`: body is
`return ibv_create_cq_ex(context, cq_attr);`, returning a
`struct ibv_cq_ex *` handle (null on failure). -/
def rs_ibv_create_cq_ex (api : VerbsApi σ) (context cq_attr : CPtr)
    (s : σ) : CPtr × σ :=
  api.ibv_create_cq_ex context cq_attr s

/-- C conversion of an integer value to `uint8_t` (reduction mod 2^8),
performed implicitly at any call passing a wider value to a `uint8_t`
parameter. -/
def toU8 (n : Nat) : Nat := n % 2 ^ 8

/-- C conversion of an integer value to `uint32_t` (reduction mod 2^32). -/
def toU32 (n : Nat) : Nat := n % 2 ^ 32

/-- Calling `rs_ibv_query_port` with a caller-side integer `port_num`:
the C calling convention converts the argument to the parameter type
`uint8_t` before the wrapper body runs. -/
def call_rs_ibv_query_port (api : VerbsApi σ) (context : CPtr)
    (port_num : Nat) (port_attr : CPtr) (s : σ) : Int × σ :=
  rs_ibv_query_port api context (toU8 port_num) port_attr s

/-- Calling `rs_ibv_query_gid_ex` with caller-side integers: the C calling
convention converts `port_num`, `gid_index` and `flags` to `uint32_t`
before the wrapper body runs. -/
def call_rs_ibv_query_gid_ex (api : VerbsApi σ) (context : CPtr)
    (port_num gid_index : Nat) (entry : CPtr) (flags : Nat) (s : σ) :
    Int × σ :=
  rs_ibv_query_gid_ex api context (toU32 port_num) (toU32 gid_index)
    entry (toU32 flags) s

/-- Error taxonomy of §7 of the design. -/
inductive RError where
  | DeviceUnavailable
  | PortUnavailable
  | InvalidPortNumber
  | InvalidGidIndex
  | GidUnavailable
  | RegistrationFailed
  | InvalidAccessFlags
  | RegionBusy
  | PeerUnreachable
  | InvalidState
  | QueueBusy
  | Timeout
  | FlushedInError
deriving DecidableEq, Repr

/-- Modelled from the spec: §3 DeviceCapabilities — immutable snapshot of a
device's extended attributes. The component implementing it is not under
`src/` (only the raw shim is), so it is modelled from the spec's words. -/
structure DeviceCapabilities where
  maxQueuePairs : Nat
  maxCqDepth : Nat
  atomicSupport : Bool
deriving DecidableEq, Repr

/-- Modelled from the spec: §3 PortAttributes — per-port state, including
the port's GID table size used by the Address Resolver's validation. -/
structure PortAttributes where
  linkLayer : Nat
  mtu : Nat
  linkState : Nat
  activeSpeed : Nat
  gidTableSize : Nat
deriving DecidableEq, Repr

/-- Modelled from the spec: §3 GidEntry — identity tuple
{port number, GID index, raw 128-bit address, address type}. -/
structure GidEntry where
  port : Nat
  index : Nat
  rawAddr : Nat
  addrType : Nat
deriving DecidableEq, Repr

/-- Modelled from the spec: the live device the discovery/resolution core
reads from, abstracting the out-of-scope verbs layer: availability, the
capability snapshot, the number of ports, each port's attributes, and the
GID table contents (`none` marks an entry the hardware cannot produce). -/
structure Device where
  available : Bool
  caps : DeviceCapabilities
  numPorts : Nat
  portAttr : Nat → PortAttributes
  gidTable : Nat → Nat → Option GidEntry

/-- Modelled from the spec: the raw hardware port query underlying
`queryPort` (the shim's `rs_ibv_query_port` viewed at the discovery
level): reads the live device, failing with `PortUnavailable` when the
device cannot answer. -/
def rawQueryPort (dev : Device) (portNumber : Nat) :
    Except RError PortAttributes :=
  if dev.available then .ok (dev.portAttr portNumber)
  else .error .PortUnavailable

/-- Modelled from the spec: §4.1 `queryDevice` — side-effect-free read of
the device's capability snapshot. -/
def queryDevice (dev : Device) : Except RError DeviceCapabilities :=
  if dev.available then .ok dev.caps else .error .DeviceUnavailable

/-- Modelled from the spec: §4.1 `queryPort` — `portNumber` must be in
`[1, numPorts]`; an out-of-range value fails with `InvalidPortNumber`
without touching hardware. The second component counts how many times the
raw hardware query was issued by the call. -/
def queryPort (dev : Device) (portNumber : Nat) :
    Except RError PortAttributes × Nat :=
  if 1 ≤ portNumber ∧ portNumber ≤ dev.numPorts then
    (rawQueryPort dev portNumber, 1)
  else
    (.error .InvalidPortNumber, 0)

/-- Modelled from the spec: the raw hardware GID query underlying
`resolveGid` (the shim's `rs_ibv_query_gid_ex` viewed at the resolver
level): reads the table entry, failing with `GidUnavailable` when the
hardware has no entry there. -/
def rawGidQuery (dev : Device) (portNumber gidIndex : Nat) :
    Except RError GidEntry :=
  match dev.gidTable portNumber gidIndex with
  | some e => .ok e
  | none => .error .GidUnavailable

/-- Modelled from the spec: §4.2 `resolveGid` — `gidIndex` is validated
against the port's current GID table size before the query is issued; an
index beyond the table size fails fast with `InvalidGidIndex`. The second
component counts how many times the raw hardware query was issued. -/
def resolveGid (dev : Device) (portNumber gidIndex flags : Nat) :
    Except RError GidEntry × Nat :=
  if gidIndex < (dev.portAttr portNumber).gidTableSize then
    (rawGidQuery dev portNumber gidIndex, 1)
  else
    (.error .InvalidGidIndex, 0)

/-- Modelled from the spec: §3 access-permission bitmask of a memory
region {local-write, remote-read, remote-write, atomic}. -/
structure AccessFlags where
  localWrite : Bool
  remoteRead : Bool
  remoteWrite : Bool
  atomic : Bool
deriving DecidableEq, Repr

/-- Modelled from the spec: §3 MemoryRegion — {buffer base address,
length, registration handle, access flags}. -/
structure MemoryRegion where
  handle : Nat
  base : Nat
  len : Nat
  flags : AccessFlags
deriving DecidableEq, Repr

/-- Modelled from the spec: a registry record — a registered region
together with its in-flight borrow reference count. -/
structure RegionRec where
  region : MemoryRegion
  inFlight : Nat
deriving DecidableEq, Repr

/-- Modelled from the spec: §4.3 Memory Region Registry state — the single
owner of registration handles. -/
structure Registry where
  nextHandle : Nat
  records : List RegionRec
deriving DecidableEq, Repr

/-- The record the registry holds for handle `h`, if any. -/
def findRec (s : Registry) (h : Nat) : Option RegionRec :=
  s.records.find? (fun r => r.region.handle == h)

/-- The validation predicate of §4.3 `register`: `accessFlags` requesting
remote-write or atomic access without local-write also set is invalid. -/
def invalidFlags (f : AccessFlags) : Bool :=
  (f.remoteWrite || f.atomic) && !f.localWrite

/-- Modelled from the spec: §4.3 `register(buffer, accessFlags)` — fails
with `InvalidAccessFlags` if the flags request remote-write or atomic
access without local-write, validated before the call reaches the
registration primitive; otherwise issues the primitive, whose outcome is
abstracted by `hwOk` (`RegistrationFailed` when it fails). The last
component counts how many times the registration primitive was issued. -/
def register (hwOk : Bool) (base len : Nat) (f : AccessFlags)
    (s : Registry) : Except RError MemoryRegion × Registry × Nat :=
  if invalidFlags f then
    (.error .InvalidAccessFlags, s, 0)
  else if hwOk then
    let mr : MemoryRegion :=
      { handle := s.nextHandle, base := base, len := len, flags := f }
    (.ok mr,
      { nextHandle := s.nextHandle + 1,
        records := s.records ++ [{ region := mr, inFlight := 0 }] },
      1)
  else
    (.error .RegistrationFailed, s, 1)

/-- Modelled from the spec: §4.3 `deregister(region)` — fails with
`RegionBusy` while the region's in-flight reference count is nonzero;
succeeds (removing the record) when the count is zero; idempotent-safe to
retry once the handle is gone. -/
def deregister (h : Nat) (s : Registry) : Except RError Unit × Registry :=
  match findRec s h with
  | none => (.ok (), s)
  | some r =>
      if r.inFlight == 0 then
        (.ok (),
          { s with records :=
              s.records.filter (fun q => q.region.handle != h) })
      else
        (.error .RegionBusy, s)

/-- Modelled from the spec: §4.3 `borrowForWorkRequest(region)` —
increments the region's in-flight reference count. -/
def borrowForWorkRequest (h : Nat) (s : Registry) : Registry :=
  { s with records := s.records.map (fun r =>
      if r.region.handle == h then { r with inFlight := r.inFlight + 1 }
      else r) }

/-- Modelled from the spec: §4.3 `release(handle)` — decrements the
region's in-flight reference count. -/
def release (h : Nat) (s : Registry) : Registry :=
  { s with records := s.records.map (fun r =>
      if r.region.handle == h then { r with inFlight := r.inFlight - 1 }
      else r) }

/-- Modelled from the spec: the state the core threads through every
operation — the registry plus a count of allocated hardware resources
(registered regions, created queues); queries must leave it unchanged. -/
structure CoreState where
  registry : Registry
  hwAllocated : Nat
deriving DecidableEq, Repr

/-- Modelled from the spec: §4.1 `queryDevice` as a state-threaded core
operation — a side-effect-free read. -/
def queryDeviceOp (dev : Device) (s : CoreState) :
    Except RError DeviceCapabilities × CoreState :=
  (queryDevice dev, s)

/-- Modelled from the spec: §4.1 `queryPort` as a state-threaded core
operation — a side-effect-free read. -/
def queryPortOp (dev : Device) (portNumber : Nat) (s : CoreState) :
    (Except RError PortAttributes × Nat) × CoreState :=
  (queryPort dev portNumber, s)

/-- Modelled from the spec: §4.3 `register` as a state-threaded core
operation — unlike the queries, it allocates a hardware resource when the
registration primitive succeeds. -/
def registerOp (hwOk : Bool) (base len : Nat) (f : AccessFlags)
    (s : CoreState) : Except RError MemoryRegion × CoreState :=
  match register hwOk base len f s.registry with
  | (.ok mr, reg, _) =>
      (.ok mr, { registry := reg, hwAllocated := s.hwAllocated + 1 })
  | (.error e, reg, _) => (.error e, { s with registry := reg })

/-- A concrete instantiation of the verbs layer used to exercise the
wrappers on concrete inputs: stateless, and each query returns its port
argument as the status so that the forwarded value is observable. -/
def obsApi : VerbsApi Unit where
  ibv_query_device_ex := fun _ _ _ s => (0, s)
  ibv_query_port := fun _ p _ s => ((p : Int), s)
  ibv_query_gid_ex := fun _ p _ _ _ s => ((p : Int), s)
  ibv_create_cq_ex := fun c _ s => (c, s)

/-- A concrete two-port device used to exercise the discovery and
resolution operations: every port reports a GID table of size 3. -/
def devW : Device where
  available := true
  caps := { maxQueuePairs := 8, maxCqDepth := 16, atomicSupport := true }
  numPorts := 2
  portAttr := fun _ =>
    { linkLayer := 1, mtu := 4096, linkState := 4, activeSpeed := 1,
      gidTableSize := 3 }
  gidTable := fun p i =>
    if p ≤ 2 ∧ i < 3 then
      some { port := p, index := i, rawAddr := 42, addrType := 2 }
    else none

/-- The port attributes `devW` reports for every port. -/
def devWAttrs : PortAttributes :=
  { linkLayer := 1, mtu := 4096, linkState := 4, activeSpeed := 1,
    gidTableSize := 3 }

/-- A concrete registered region (handle 0) used to exercise the
registry. -/
def mrW : MemoryRegion :=
  { handle := 0, base := 4096, len := 4096,
    flags := { localWrite := true, remoteRead := false,
               remoteWrite := false, atomic := false } }

/-- A concrete registry holding `mrW` with one outstanding borrow. -/
def regW : Registry :=
  { nextHandle := 1, records := [{ region := mrW, inFlight := 1 }] }

/-- The two work queues of a queue pair. -/
inductive QueueKind where
  | send
  | recv
deriving DecidableEq, Repr

/-- Modelled from the spec: §3 CompletionQueueEntry — work-request
identifier plus the queue (queue-pair identifier and queue kind) the
corresponding work request was posted to. Status, opcode and byte count
are not needed for the ordering property and are omitted. -/
structure CQE where
  qp : Nat
  kind : QueueKind
  wr : Nat
deriving DecidableEq, Repr

/-- Modelled from the spec: §4.5 completion-engine state — `pending` maps
each queue (queue pair, kind) to its in-flight work requests in post
order, `cq` is the completion queue contents in hardware delivery order,
and `posted` records each queue's full post history. -/
structure EngineState where
  pending : Nat → QueueKind → List Nat
  cq : List CQE
  posted : Nat → QueueKind → List Nat

/-- The engine's initial state: nothing posted, nothing completed. -/
def initEngine : EngineState :=
  { pending := fun _ _ => [], cq := [], posted := fun _ _ => [] }

/-- Pointwise update of a per-queue map at one queue. -/
def updateQ (f : Nat → QueueKind → List Nat) (q : Nat) (k : QueueKind)
    (l : List Nat) : Nat → QueueKind → List Nat :=
  fun q' k' => if q' = q ∧ k' = k then l else f q' k'

/-- Modelled from the spec: posting a work request (`postSend` /
`postReceive`) appends it to its queue pair's send or receive queue. -/
def postWr (q : Nat) (k : QueueKind) (wr : Nat) (s : EngineState) :
    EngineState :=
  { pending := updateQ s.pending q k (s.pending q k ++ [wr]),
    cq := s.cq,
    posted := updateQ s.posted q k (s.posted q k ++ [wr]) }

/-- Modelled from the spec: a hardware completion moves a work request
from its queue to the completion queue; per-queue FIFO is
hardware-guaranteed, so only the oldest pending request of a queue can
complete (enforced by the `EStep.complete` side condition). -/
def completeWr (q : Nat) (k : QueueKind) (wr : Nat) (rest : List Nat)
    (s : EngineState) : EngineState :=
  { pending := updateQ s.pending q k rest,
    cq := s.cq ++ [{ qp := q, kind := k, wr := wr }],
    posted := s.posted }

/-- Modelled from the spec: one step of the engine — either the
application posts a work request to some queue, or the hardware completes
the oldest pending request of some queue; steps of distinct queues
interleave arbitrarily. -/
inductive EStep : EngineState → EngineState → Prop where
  | post (q : Nat) (k : QueueKind) (wr : Nat) (s : EngineState) :
      EStep s (postWr q k wr s)
  | complete (q : Nat) (k : QueueKind) (wr : Nat) (rest : List Nat)
      (s : EngineState) (hhead : s.pending q k = wr :: rest) :
      EStep s (completeWr q k wr rest s)

/-- Engine states reachable from the initial state by any interleaving of
posts and completions. -/
inductive Reachable : EngineState → Prop where
  | init : Reachable initEngine
  | step {s t : EngineState} : Reachable s → EStep s t → Reachable t

/-- The work-request identifiers of the entries of `l` that belong to
queue (`q`, `k`), in order. -/
def cqWrs (q : Nat) (k : QueueKind) (l : List CQE) : List Nat :=
  (l.filter (fun e => e.qp == q && e.kind == k)).map (fun e => e.wr)

/-- Modelled from the spec: §4.5 `poll(maxEntries)` — a single
non-blocking drain of currently-ready completions, at most `maxEntries`
of them, returned in delivery order; may return an empty sequence. -/
def poll (maxEntries : Nat) (s : EngineState) : List CQE × EngineState :=
  (s.cq.take maxEntries, { s with cq := s.cq.drop maxEntries })

/-- A concrete engine run: two sends and one receive posted on queue
pair 7, then the hardware completes the first send. -/
def engW : EngineState :=
  completeWr 7 QueueKind.send 100 [101]
    (postWr 7 QueueKind.send 101
      (postWr 7 QueueKind.recv 200
        (postWr 7 QueueKind.send 100 initEngine)))

end Rsrdma

namespace Rsrdma

/-- C1: each of the three query wrappers is a stateless pass-through —
as a function (on all arguments and on the ambient state) it is equal to
the raw primitive it wraps, so it returns exactly the underlying call's
value and performs no state change of its own beyond that call. -/
theorem query_wrappers_pass_through (api : VerbsApi σ) :
    rs_ibv_query_device_ex api = api.ibv_query_device_ex ∧
    rs_ibv_query_port api = api.ibv_query_port ∧
    rs_ibv_query_gid_ex api = api.ibv_query_gid_ex := by
  refine ⟨rfl, rfl, rfl⟩

/-- C2: each query wrapper propagates the underlying native status code
unchanged (so it is non-zero exactly when the underlying call reports
failure), and `rs_ibv_create_cq_ex` returns a null handle exactly when the
underlying `ibv_create_cq_ex` returns null — the wrappers interpret or map
nothing themselves. -/
theorem boundary_failure_convention (api : VerbsApi σ)
    (context input attr port_attr entry cq_attr : CPtr)
    (port_num gid_index flags : Nat) (s : σ) :
    (rs_ibv_query_device_ex api context input attr s).1 =
      (api.ibv_query_device_ex context input attr s).1 ∧
    (rs_ibv_query_port api context port_num port_attr s).1 =
      (api.ibv_query_port context port_num port_attr s).1 ∧
    (rs_ibv_query_gid_ex api context port_num gid_index entry flags s).1 =
      (api.ibv_query_gid_ex context port_num gid_index entry flags s).1 ∧
    ((rs_ibv_create_cq_ex api context cq_attr s).1 = CPtr.null ↔
      (api.ibv_create_cq_ex context cq_attr s).1 = CPtr.null) := by
  exact ⟨rfl, rfl, rfl, Iff.rfl⟩

/-- C9: the two port-query entry points disagree on the width of the port
number. For a caller-supplied port number `n` with `255 < n < 2^32`, the
value reaching the underlying `ibv_query_port` through
`rs_ibv_query_port` is `n % 256`, which differs from `n`, whereas
`rs_ibv_query_gid_ex` forwards `n` exactly. -/
theorem port_num_width_mismatch (n : Nat) (h255 : 255 < n)
    (h32 : n < 2 ^ 32) :
    ∀ (api : VerbsApi σ) (context port_attr entry : CPtr)
      (gid_index flags : Nat) (s : σ),
      gid_index < 2 ^ 32 → flags < 2 ^ 32 →
      call_rs_ibv_query_port api context n port_attr s =
        api.ibv_query_port context (n % 256) port_attr s ∧
      n % 256 ≠ n ∧
      call_rs_ibv_query_gid_ex api context n gid_index entry flags s =
        api.ibv_query_gid_ex context n gid_index entry flags s := by
  intro api context port_attr entry gid_index flags s hg hf
  refine ⟨rfl, ?_, ?_⟩
  · intro hmod
    have : n % 256 < 256 := Nat.mod_lt _ (by decide)
    omega
  · unfold call_rs_ibv_query_gid_ex rs_ibv_query_gid_ex toU32
    rw [Nat.mod_eq_of_lt h32, Nat.mod_eq_of_lt hg, Nat.mod_eq_of_lt hf]

/-- Witness for C9 at the concrete port number 300: through
`rs_ibv_query_port` the value reaching the underlying call is
`300 % 256 = 44`, while `rs_ibv_query_gid_ex` forwards 300 exactly
(observed with `obsApi`, whose queries report the port argument). -/
theorem port_num_width_mismatch_witness :
    (call_rs_ibv_query_port obsApi CPtr.null 300 CPtr.null () =
        obsApi.ibv_query_port CPtr.null (300 % 256) CPtr.null () ∧
      300 % 256 ≠ 300 ∧
      call_rs_ibv_query_gid_ex obsApi CPtr.null 300 0 CPtr.null 0 () =
        obsApi.ibv_query_gid_ex CPtr.null 300 0 CPtr.null 0 ()) ∧
    (call_rs_ibv_query_port obsApi CPtr.null 300 CPtr.null ()).1 = 44 ∧
    (call_rs_ibv_query_gid_ex obsApi CPtr.null 300 0 CPtr.null 0 ()).1 =
      300 := by
  refine ⟨port_num_width_mismatch 300 (by decide) (by decide) obsApi
    CPtr.null CPtr.null CPtr.null 0 0 () (by decide) (by decide),
    by decide, by decide⟩

/-- C10: no wrapper validates any of its arguments: even at a null context
pointer, null input/attribute/entry pointers, port number 0, and arbitrary
flags, each of the four wrappers unconditionally forwards its arguments to
the underlying verbs call — there is no guard and no error branch inside
the wrapper. -/
theorem wrappers_no_validation (api : VerbsApi σ) (flags : Nat) (s : σ) :
    rs_ibv_query_device_ex api CPtr.null CPtr.null CPtr.null s =
      api.ibv_query_device_ex CPtr.null CPtr.null CPtr.null s ∧
    rs_ibv_query_port api CPtr.null 0 CPtr.null s =
      api.ibv_query_port CPtr.null 0 CPtr.null s ∧
    rs_ibv_query_gid_ex api CPtr.null 0 0 CPtr.null flags s =
      api.ibv_query_gid_ex CPtr.null 0 0 CPtr.null flags s ∧
    rs_ibv_create_cq_ex api CPtr.null CPtr.null s =
      api.ibv_create_cq_ex CPtr.null CPtr.null s := by
  exact ⟨rfl, rfl, rfl, rfl⟩

/-- C3: for every `portNumber` outside `[1, numPorts]`, `queryPort` fails
with `InvalidPortNumber` and issues zero raw hardware queries. -/
theorem queryPort_invalid_port (dev : Device) (p : Nat)
    (h : ¬(1 ≤ p ∧ p ≤ dev.numPorts)) :
    queryPort dev p = (.error .InvalidPortNumber, 0) := by
  simp [queryPort, h]

/-- Witness for C3: on the two-port device `devW`, `queryPort` at port 0
fails with `InvalidPortNumber` without touching hardware. -/
theorem queryPort_invalid_port_witness :
    ¬(1 ≤ 0 ∧ 0 ≤ devW.numPorts) ∧
    queryPort devW 0 = (.error .InvalidPortNumber, 0) :=
  ⟨by decide, queryPort_invalid_port devW 0 (by decide)⟩

/-- C4: with `attrs` the attributes reported by an immediately preceding
successful `queryPort`, `resolveGid` at any `gidIndex ≥ attrs.gidTableSize`
fails with `InvalidGidIndex` and issues zero raw hardware queries, while at
any `gidIndex < attrs.gidTableSize` it never fails with
`InvalidGidIndex`. -/
theorem resolveGid_index_validation (dev : Device) (p i j fl : Nat)
    (attrs : PortAttributes)
    (hq : (queryPort dev p).1 = .ok attrs)
    (hi : attrs.gidTableSize ≤ i)
    (hj : j < attrs.gidTableSize) :
    resolveGid dev p i fl = (.error .InvalidGidIndex, 0) ∧
    (resolveGid dev p j fl).1 ≠ .error .InvalidGidIndex := by
  have hattrs : attrs = dev.portAttr p := by
    unfold queryPort rawQueryPort at hq
    by_cases hr : 1 ≤ p ∧ p ≤ dev.numPorts
    · simp only [hr, if_true] at hq
      by_cases ha : dev.available
      · simp [ha] at hq
        exact hq.symm
      · simp [ha] at hq
    · simp [hr] at hq
  subst hattrs
  constructor
  · simp [resolveGid, Nat.not_lt.mpr hi]
  · simp only [resolveGid, hj, if_true]
    unfold rawGidQuery
    cases dev.gidTable p j <;> simp

/-- Witness for C4: on `devW` (GID table size 3 at port 1), index 5 fails
fast with `InvalidGidIndex` and index 0 does not. -/
theorem resolveGid_index_validation_witness :
    (queryPort devW 1).1 = .ok devWAttrs ∧
    devWAttrs.gidTableSize ≤ 5 ∧ 0 < devWAttrs.gidTableSize ∧
    (resolveGid devW 1 5 0 = (.error .InvalidGidIndex, 0) ∧
      (resolveGid devW 1 0 0).1 ≠ .error .InvalidGidIndex) :=
  ⟨rfl, by decide, by decide,
    resolveGid_index_validation devW 1 5 0 0 devWAttrs rfl (by decide)
      (by decide)⟩

/-- C5: `queryDevice` and `queryPort` are side-effect-free reads — as core
operations they leave the whole threaded state (registry and allocated
hardware-resource count) unchanged. -/
theorem queries_side_effect_free (dev : Device) (p : Nat) (s : CoreState) :
    (queryDeviceOp dev s).2 = s ∧
    (queryPortOp dev p s).2 = s ∧
    (queryDeviceOp dev s).2.registry = s.registry ∧
    (queryPortOp dev p s).2.hwAllocated = s.hwAllocated :=
  ⟨rfl, rfl, rfl, rfl⟩

/-- C6: flags requesting remote-write or atomic access without local-write
make `register` fail with `InvalidAccessFlags` with zero calls to the
registration primitive; adding local-write to the same request (when the
primitive succeeds) makes `register` return a region whose access flags
equal the requested flags. -/
theorem register_flags_validation (hwOk : Bool) (base len : Nat)
    (f : AccessFlags) (s : Registry)
    (hinv : invalidFlags f = true) :
    register hwOk base len f s = (.error .InvalidAccessFlags, s, 0) ∧
    (hwOk = true →
      (register hwOk base len { f with localWrite := true } s).1 =
        .ok { handle := s.nextHandle, base := base, len := len,
              flags := { f with localWrite := true } } ∧
      ∀ mr, (register hwOk base len { f with localWrite := true } s).1 =
          .ok mr → mr.flags = { f with localWrite := true }) := by
  have hok : invalidFlags { f with localWrite := true } = false := by
    simp [invalidFlags]
  constructor
  · simp [register, hinv]
  · intro hhw
    subst hhw
    refine ⟨by simp [register, hok], ?_⟩
    intro mr hmr
    simp [register, hok] at hmr
    rw [← hmr]

/-- Witness for C6: requesting `{remote-write}` alone fails with
`InvalidAccessFlags` before the primitive is reached; retrying with
`{local-write, remote-write}` succeeds with matching flags. -/
theorem register_flags_validation_witness :
    invalidFlags { localWrite := false, remoteRead := false,
                   remoteWrite := true, atomic := false } = true ∧
    (register true 4096 4096
        { localWrite := false, remoteRead := false, remoteWrite := true,
          atomic := false } { nextHandle := 0, records := [] } =
      (.error .InvalidAccessFlags, { nextHandle := 0, records := [] },
        0) ∧
    (true = true →
      (register true 4096 4096
          { localWrite := true, remoteRead := false, remoteWrite := true,
            atomic := false } { nextHandle := 0, records := [] }).1 =
        .ok { handle := 0, base := 4096, len := 4096,
              flags := { localWrite := true, remoteRead := false,
                         remoteWrite := true, atomic := false } } ∧
      ∀ mr, (register true 4096 4096
          { localWrite := true, remoteRead := false, remoteWrite := true,
            atomic := false } { nextHandle := 0, records := [] }).1 =
          .ok mr →
        mr.flags = { localWrite := true, remoteRead := false,
                     remoteWrite := true, atomic := false })) :=
  ⟨by decide,
    register_flags_validation true 4096 4096
      { localWrite := false, remoteRead := false, remoteWrite := true,
        atomic := false } { nextHandle := 0, records := [] } (by decide)⟩

/-- C7: while a registered region's in-flight borrow count is nonzero,
`deregister` fails with `RegionBusy` and the region remains registered;
`deregister` is accepted exactly when the count is zero; and every borrow
matched by a `release` restores the registry, so a fully drained region
can be deregistered. -/
theorem deregister_refcount (s : Registry) (h : Nat) (r : RegionRec)
    (hfind : findRec s h = some r) :
    (r.inFlight ≠ 0 →
      deregister h s = (.error .RegionBusy, s) ∧
      findRec (deregister h s).2 h = some r) ∧
    (((deregister h s).1 = .ok ()) ↔ r.inFlight = 0) ∧
    (∀ t : Registry, release h (borrowForWorkRequest h t) = t) := by
  have hrel : ∀ t : Registry, release h (borrowForWorkRequest h t) = t := by
    intro t
    have hcomp : ∀ r' : RegionRec,
        (fun q : RegionRec =>
          if q.region.handle == h then { q with inFlight := q.inFlight - 1 }
          else q)
        ((fun q : RegionRec =>
          if q.region.handle == h then { q with inFlight := q.inFlight + 1 }
          else q) r') = r' := by
      intro r'
      by_cases hb : r'.region.handle == h
      · simp [hb]
      · simp [hb]
    simp only [release, borrowForWorkRequest, List.map_map,
      Function.comp_def, hcomp, List.map_id, List.map_id']
  by_cases hz : r.inFlight = 0
  · have hb : (r.inFlight == 0) = true := by simp [hz]
    refine ⟨fun hnz => absurd hz hnz, ?_, hrel⟩
    simp [deregister, hfind, hb, hz]
  · have hb : (r.inFlight == 0) = false := by simp [hz]
    refine ⟨fun _ => ⟨?_, ?_⟩, ?_, hrel⟩
    · simp [deregister, hfind, hb]
    · simp [deregister, hfind, hb]
    · simp [deregister, hfind, hb, hz]

/-- Witness for C7: in `regW` the region with handle 0 has one outstanding
borrow, so `deregister` rejects it with `RegionBusy` and it stays
registered; after the matching `release` the count is zero and
`deregister` succeeds. -/
theorem deregister_refcount_witness :
    findRec regW 0 = some { region := mrW, inFlight := 1 } ∧
    ((1 ≠ 0 →
        deregister 0 regW = (.error .RegionBusy, regW) ∧
        findRec (deregister 0 regW).2 0 =
          some { region := mrW, inFlight := 1 }) ∧
      (((deregister 0 regW).1 = .ok ()) ↔ 1 = 0) ∧
      (∀ t : Registry, release 0 (borrowForWorkRequest 0 t) = t)) ∧
    (deregister 0 (release 0 regW)).1 = .ok () :=
  ⟨rfl, deregister_refcount regW 0 { region := mrW, inFlight := 1 } rfl,
    rfl⟩

/-- Filtering for a queue commutes with appending one of its own CQEs. -/
theorem cqWrs_append_match (q : Nat) (k : QueueKind) (l : List CQE)
    (wr : Nat) :
    cqWrs q k (l ++ [{ qp := q, kind := k, wr := wr }]) =
      cqWrs q k l ++ [wr] := by
  simp [cqWrs, List.filter_append]

/-- Filtering for a queue ignores an appended CQE of a different queue. -/
theorem cqWrs_append_other (q q0 : Nat) (k k0 : QueueKind) (l : List CQE)
    (wr : Nat) (h : ¬(q = q0 ∧ k = k0)) :
    cqWrs q k (l ++ [{ qp := q0, kind := k0, wr := wr }]) =
      cqWrs q k l := by
  have hne : (({ qp := q0, kind := k0, wr := wr } : CQE).qp == q &&
      ({ qp := q0, kind := k0, wr := wr } : CQE).kind == k) = false := by
    by_cases h1 : q0 = q
    · by_cases h2 : k0 = k
      · exact absurd ⟨h1.symm, h2.symm⟩ h
      · simp [h2]
    · simp [h1]
  simp [cqWrs, List.filter_append, hne]

/-- Invariant of the completion engine: for every queue, the completions
delivered so far followed by the still-pending requests are exactly that
queue's post history, in order. -/
theorem engine_invariant {s : EngineState} (hs : Reachable s) :
    ∀ (q : Nat) (k : QueueKind),
      cqWrs q k s.cq ++ s.pending q k = s.posted q k := by
  induction hs with
  | init => intro q k; simp [initEngine, cqWrs]
  | step _ hstep ih =>
      cases hstep with
      | post q0 k0 wr0 =>
          intro q k
          by_cases hqk : q = q0 ∧ k = k0
          · obtain ⟨hq, hk⟩ := hqk
            subst hq; subst hk
            simp only [postWr, updateQ, and_self, eq_self_iff_true,
              if_true, ite_true]
            rw [← List.append_assoc, ih q k]
          · simp only [postWr, updateQ, if_neg hqk]
            exact ih q k
      | complete q0 k0 wr0 rest s0 hhead =>
          intro q k
          by_cases hqk : q = q0 ∧ k = k0
          · obtain ⟨hq, hk⟩ := hqk
            subst hq; subst hk
            simp only [completeWr, updateQ, and_self, eq_self_iff_true,
              if_true, ite_true]
            rw [cqWrs_append_match, List.append_assoc]
            have hcons : [wr0] ++ rest = wr0 :: rest := rfl
            rw [hcons, ← hhead]
            exact ih q k
          · simp only [completeWr, updateQ, if_neg hqk]
            rw [cqWrs_append_other q q0 k k0 _ wr0 hqk]
            exact ih q k

/-- C8: for every reachable engine state — any interleaving of send and
receive posts and hardware completions — and every queue of every queue
pair, the CQEs observed via `poll` for that queue are an initial segment
of that queue's post history, in post order: per-queue FIFO delivery,
never reordered by `poll`. -/
theorem poll_fifo_per_qp (s : EngineState) (hs : Reachable s) :
    ∀ (q : Nat) (k : QueueKind) (n : Nat),
      ∃ rest : List Nat,
        s.posted q k = cqWrs q k (poll n s).1 ++ rest := by
  intro q k n
  refine ⟨cqWrs q k (s.cq.drop n) ++ s.pending q k, ?_⟩
  rw [← engine_invariant hs q k]
  show cqWrs q k s.cq ++ s.pending q k =
    cqWrs q k (s.cq.take n) ++ (cqWrs q k (s.cq.drop n) ++ s.pending q k)
  rw [← List.append_assoc]
  congr 1
  unfold cqWrs
  rw [← List.map_append, ← List.filter_append, List.take_append_drop]

/-- Witness for C8 on the concrete run `engW` (posts send 100, recv 200,
send 101 on queue pair 7, then hardware completes send 100): the polled
CQEs of the send queue are an initial segment of its post history
`[100, 101]`. -/
theorem poll_fifo_per_qp_witness :
    (∃ rest : List Nat,
      engW.posted 7 QueueKind.send =
        cqWrs 7 QueueKind.send (poll 16 engW).1 ++ rest) ∧
    engW.posted 7 QueueKind.send = [100, 101] ∧
    (poll 16 engW).1 = [{ qp := 7, kind := QueueKind.send, wr := 100 }] := by
  refine ⟨poll_fifo_per_qp engW ?_ 7 QueueKind.send 16, by decide, by decide⟩
  exact Reachable.step
    (Reachable.step
      (Reachable.step
        (Reachable.step Reachable.init
          (EStep.post 7 QueueKind.send 100 initEngine))
        (EStep.post 7 QueueKind.recv 200 _))
      (EStep.post 7 QueueKind.send 101 _))
    (EStep.complete 7 QueueKind.send 100 [101] _ (by decide))

end Rsrdma
